import Mathlib

/-!
Shallow embedding of the parcel lifecycle and status-tracking subsystem of
the Profast server (src/index.js).  Timestamps are modelled in hours as
rationals, so the handler computation
`hoursDiff = (now - createdAt) / (1000 * 60 * 60)` (milliseconds to hours)
becomes `hoursDiff = now - createdAt` directly.  MongoDB ObjectIds are
modelled as naturals drawn from a fresh-id counter; `insertOne` is list
append; `findOne` is first match; `updateOne` updates the first match.
JS fields that may be `undefined` are modelled with `Option`.
The notification and admin-log collections (the external Notification/Audit
Sink) are modelled as counters of emitted records; their payloads are glue
outside the core subsystem.
-/

namespace Profast

/-- Payment details stored on a parcel by the payment-confirmation handler
(`paymentInfo` object, src/index.js lines 1399-1404). -/
structure PaymentInfo where
  paymentIntentId : String
  amount : ℚ
  paidAt : ℚ
  payerEmail : String
deriving Repr, DecidableEq

/-- A parcel document in `parcelCollection`.  `id` models the Mongo `_id`;
`trackingId` is the customer-facing code (possibly absent, as in JS). -/
structure Parcel where
  id : Nat
  trackingId : Option String
  createdBy_name : Option String
  createdBy_email : Option String
  senderRegion : String
  receiverRegion : String
  senderWarehouse : String
  receiverWarehouse : String
  parcelType : String
  createdAt : ℚ
  status : String
  paymentStatus : String
  deliveredAt : Option ℚ
  paymentInfo : Option PaymentInfo
deriving Repr, DecidableEq, Inhabited

/-- A tracking log document in `trackingCollection`. -/
structure TrackingEvent where
  tracking_Id : Option String
  parcel_id : Option Nat
  status : String
  message : String
  time : ℚ
  updated_by : String
deriving Repr, DecidableEq

/-- A denormalized payment document in `paymentCollection`
(src/index.js lines 1418-1428). -/
structure PaymentRecord where
  paymentIntentId : String
  amount : ℚ
  paidAt : ℚ
  payerEmail : String
  payerName : String
  trackingId : String
  parcelType : String
  region : String
  receiverRegion : String
deriving Repr, DecidableEq

/-- The database state: the parcel store, the tracking ledger, the payment
ledger, plus counters for emitted notifications and admin-log entries
(the external sink).  `nextId` supplies fresh ObjectIds. -/
structure DB where
  nextId : Nat
  parcels : List Parcel
  tracking : List TrackingEvent
  payments : List PaymentRecord
  notifications : Nat
  logs : Nat
deriving Repr, DecidableEq

/-- The empty database. -/
def emptyDB : DB :=
  { nextId := 0, parcels := [], tracking := [], payments := [],
    notifications := 0, logs := 0 }

/-- Mongo `updateOne`: apply `f` to the first element satisfying `pred`,
leave the rest unchanged. -/
def updateFirst {α : Type} (pred : α → Bool) (f : α → α) : List α → List α
  | [] => []
  | x :: xs => if pred x then f x :: xs else x :: updateFirst pred f xs

/-- Predicate for `findOne({_id})` / `updateOne({_id})`. -/
def byId (i : Nat) (p : Parcel) : Bool := p.id == i

/-- Predicate for `findOne({trackingId})` / `updateOne({trackingId})`. -/
def byTrackingId (tid : String) (p : Parcel) : Bool := p.trackingId == some tid

/-- Decision of the cancellation policy. -/
inductive PolicyDecision where
  | denied (message : String)
  | allowed
deriving Repr, DecidableEq

/-- Denial message of rule 1 (same regional central hub). -/
def msgSameHub : String := "Parcel cannot be cancelled (same regional central hub)."

/-- Denial message of rule 2 (24-hour window). -/
def msg24h : String := "Parcel can only be cancelled within 24 hours."

/-- Denial message of rule 3 (8-hour window for same region, different hub). -/
def msg8h : String :=
  "Parcel can only be cancelled within 8 hours for same region but different hub."

/-- The cancellation policy rules of PATCH /parcels/:id/cancel
(src/index.js lines 720-747), in source order, first match wins. -/
def evaluatePolicy (p : Parcel) (hoursDiff : ℚ) : PolicyDecision :=
  if p.senderRegion = p.receiverRegion ∧ p.senderWarehouse = "Central Hub" ∧
      p.receiverWarehouse = "Central Hub" then
    .denied msgSameHub
  else if hoursDiff > 24 then
    .denied msg24h
  else if p.senderRegion = p.receiverRegion ∧
      p.senderWarehouse ≠ p.receiverWarehouse ∧ hoursDiff > 8 then
    .denied msg8h
  else
    .allowed

/-- The caller-supplied request body of POST /parcels.  `status` and
`paymentStatus` carry whatever the client sent; the handler overwrites
them. -/
structure ParcelDraft where
  trackingId : Option String
  createdBy_name : Option String
  createdBy_email : Option String
  senderRegion : String
  receiverRegion : String
  senderWarehouse : String
  receiverWarehouse : String
  parcelType : String
  status : String
  paymentStatus : String
deriving Repr, DecidableEq

/-- Response of POST /parcels (src/index.js lines 663-703).  The only
non-exceptional path is 201 with the insert result; the catch branch (500 on
a store exception) is outside the model. -/
inductive CreateResponse where
  | created (insertedId : Nat)
deriving Repr, DecidableEq

/-- POST /parcels (src/index.js lines 663-703): force
`createdAt`, `status = "Pending"`, `paymentStatus = "Not Paid"` on the
draft, insert the parcel, insert the initial tracking log, emit a
notification, respond 201.  No field of the draft is validated. -/
def createParcel (db : DB) (draft : ParcelDraft) (now : ℚ) :
    CreateResponse × DB :=
  let p : Parcel :=
    { id := db.nextId
      trackingId := draft.trackingId
      createdBy_name := draft.createdBy_name
      createdBy_email := draft.createdBy_email
      senderRegion := draft.senderRegion
      receiverRegion := draft.receiverRegion
      senderWarehouse := draft.senderWarehouse
      receiverWarehouse := draft.receiverWarehouse
      parcelType := draft.parcelType
      createdAt := now
      status := "Pending"
      paymentStatus := "Not Paid"
      deliveredAt := none
      paymentInfo := none }
  let ev : TrackingEvent :=
    { tracking_Id := draft.trackingId
      parcel_id := some p.id
      status := "Pending"
      message := "Parcel created and awaiting pickup"
      time := now
      updated_by := "System" }
  (.created p.id,
    { db with
        nextId := db.nextId + 1
        parcels := db.parcels ++ [p]
        tracking := db.tracking ++ [ev]
        notifications := db.notifications + 1 })

/-- Response of PATCH /parcels/:id/cancel (404 / 400 with reason /
200 with success true). -/
inductive CancelResponse where
  | notFound
  | badRequest (message : String)
  | ok
deriving Repr, DecidableEq

/-- PATCH /parcels/:id/cancel (src/index.js lines 706-772): load the
parcel (404 if absent), evaluate the three business rules on
`hoursDiff = now - createdAt`, deny with 400 and the rule message, or set
`status = "Cancelled"` on the parcel, emit a notification and respond
`success: true`.  No tracking-ledger write happens here, and the parcel's
current status is never read. -/
def cancelParcel (db : DB) (id : Nat) (now : ℚ) : CancelResponse × DB :=
  match db.parcels.find? (byId id) with
  | none => (.notFound, db)
  | some parcel =>
    let hoursDiff := now - parcel.createdAt
    match evaluatePolicy parcel hoursDiff with
    | .denied msg => (.badRequest msg, db)
    | .allowed =>
      (.ok,
        { db with
            parcels := updateFirst (byId id)
              (fun p => { p with status := "Cancelled" }) db.parcels
            notifications := db.notifications + 1 })

/-- Response of PATCH /admin/parcels/:id/status (404 / 200 success). -/
inductive AdminStatusResponse where
  | notFound
  | ok
deriving Repr, DecidableEq

/-- PATCH /admin/parcels/:id/status (src/index.js lines 863-916): load the
parcel (404 if absent), set `status = newStatus` (no validation of the
value) and `deliveredAt` (stamped when `newStatus = "Delivered"`, cleared
otherwise), insert one tracking log with message
`Status updated to newStatus` and actor `updatedBy` defaulting to
`"System"`, emit a notification and an admin-log entry. -/
def adminUpdateParcelStatus (db : DB) (id : Nat) (newStatus : String)
    (updatedBy : Option String) (now : ℚ) : AdminStatusResponse × DB :=
  match db.parcels.find? (byId id) with
  | none => (.notFound, db)
  | some parcel =>
    let ev : TrackingEvent :=
      { tracking_Id := parcel.trackingId
        parcel_id := some parcel.id
        status := newStatus
        message := "Status updated to " ++ newStatus
        time := now
        updated_by := updatedBy.getD "System" }
    (.ok,
      { db with
          parcels := updateFirst (byId id)
            (fun p => { p with
                status := newStatus
                deliveredAt := if newStatus = "Delivered" then some now else none })
            db.parcels
          tracking := db.tracking ++ [ev]
          notifications := db.notifications + 1
          logs := db.logs + 1 })

/-- Response of POST /tracking: 200 with the inserted log's id.  The handler
has no failure branch of its own. -/
inductive TrackingResponse where
  | ok (insertedId : Nat)
deriving Repr, DecidableEq

/-- POST /tracking (src/index.js lines 1338-1361): insert a tracking log
from the caller-supplied body (`updated_by` defaults to the empty string at
the call site), then, whenever `parcel_id` is present, unconditionally
overwrite that parcel's `status` with the caller-supplied value.  No parcel
lookup, no status validation.  The inserted id is modelled as the log's
position in the ledger. -/
def postTracking (db : DB) (tracking_Id : Option String)
    (parcel_id : Option Nat) (status : String) (message : String)
    (updated_by : String) (now : ℚ) : TrackingResponse × DB :=
  let log : TrackingEvent :=
    { tracking_Id := tracking_Id
      parcel_id := parcel_id
      status := status
      message := message
      time := now
      updated_by := updated_by }
  let db1 := { db with tracking := db.tracking ++ [log] }
  let db2 :=
    match parcel_id with
    | some pid =>
      { db1 with
          parcels := updateFirst (byId pid)
            (fun p => { p with status := status }) db1.parcels }
    | none => db1
  (.ok db.tracking.length, db2)

/-- Response of PATCH /parcels/:trackingId/payment
(404 / 409 already paid / 200 success). -/
inductive PaymentResponse where
  | notFound
  | conflict
  | ok
deriving Repr, DecidableEq

/-- PATCH /parcels/:trackingId/payment (src/index.js lines 1385-1446): load
the parcel by tracking code (404 if absent), respond 409 and write nothing
when `paymentStatus` is already `"Paid"`, otherwise set
`paymentStatus = "Paid"` and the `paymentInfo` on the parcel, insert a
denormalized record into the payment ledger, emit a notification. -/
def confirmPayment (db : DB) (trackingId : String) (paymentIntentId : String)
    (amount : ℚ) (payerEmail : String) (now : ℚ) : PaymentResponse × DB :=
  match db.parcels.find? (byTrackingId trackingId) with
  | none => (.notFound, db)
  | some parcel =>
    if parcel.paymentStatus = "Paid" then
      (.conflict, db)
    else
      let info : PaymentInfo :=
        { paymentIntentId := paymentIntentId
          amount := amount
          paidAt := now
          payerEmail := payerEmail }
      let rec0 : PaymentRecord :=
        { paymentIntentId := paymentIntentId
          amount := amount
          paidAt := now
          payerEmail := payerEmail
          payerName := parcel.createdBy_name.getD "Unknown"
          trackingId := trackingId
          parcelType := parcel.parcelType
          region := parcel.senderRegion
          receiverRegion := parcel.receiverRegion }
      (.ok,
        { db with
            parcels := updateFirst (byTrackingId trackingId)
              (fun p => { p with paymentStatus := "Paid", paymentInfo := some info })
              db.parcels
            payments := db.payments ++ [rec0]
            notifications := db.notifications + 1 })

/-- One inbound request to the subsystem, for reasoning about sequences of
operations. -/
inductive Op where
  | create (draft : ParcelDraft) (now : ℚ)
  | cancel (id : Nat) (now : ℚ)
  | adminStatus (id : Nat) (newStatus : String) (updatedBy : Option String) (now : ℚ)
  | tracking (tracking_Id : Option String) (parcel_id : Option Nat)
      (status : String) (message : String) (updated_by : String) (now : ℚ)
  | payment (trackingId : String) (paymentIntentId : String) (amount : ℚ)
      (payerEmail : String) (now : ℚ)
deriving Repr

/-- The state transition of one request (the response is discarded). -/
def applyOp (db : DB) : Op → DB
  | .create draft now => (createParcel db draft now).2
  | .cancel id now => (cancelParcel db id now).2
  | .adminStatus id ns ub now => (adminUpdateParcelStatus db id ns ub now).2
  | .tracking tid pid st msg ub now => (postTracking db tid pid st msg ub now).2
  | .payment tid pi amt pe now => (confirmPayment db tid pi amt pe now).2

/-- The state after a sequence of requests. -/
def applyOps (db : DB) (ops : List Op) : DB := ops.foldl applyOp db

/-! ### Generic lemmas about the store primitives -/

/-- Every element of `updateFirst pred f xs` is an element of `xs` or the
image under `f` of an element of `xs`. -/
theorem mem_updateFirst {α : Type} (pred : α → Bool) (f : α → α)
    (xs : List α) :
    ∀ y ∈ updateFirst pred f xs, y ∈ xs ∨ ∃ x, x ∈ xs ∧ y = f x := by
  induction xs with
  | nil => intro y hy; simp [updateFirst] at hy
  | cons x xs ih =>
    intro y hy
    simp only [updateFirst] at hy
    split at hy
    · rcases List.mem_cons.mp hy with h | h
      · exact Or.inr ⟨x, List.mem_cons_self x xs, h⟩
      · exact Or.inl (List.mem_cons_of_mem x h)
    · rcases List.mem_cons.mp hy with h | h
      · exact Or.inl (h ▸ List.mem_cons_self x xs)
      · rcases ih y h with h2 | ⟨x2, hx2, he⟩
        · exact Or.inl (List.mem_cons_of_mem x h2)
        · exact Or.inr ⟨x2, List.mem_cons_of_mem x hx2, he⟩

/-- When `f` does not change whether an element matches, `findOne` after
`updateOne` returns the updated version of what `findOne` returned before. -/
theorem find?_updateFirst {α : Type} (pred : α → Bool) (f : α → α)
    (hf : ∀ a, pred (f a) = pred a) (xs : List α) :
    (updateFirst pred f xs).find? pred = (xs.find? pred).map f := by
  induction xs with
  | nil => simp [updateFirst]
  | cons x xs ih =>
    by_cases hp : pred x = true
    · simp only [updateFirst, if_pos hp]
      rw [List.find?_cons_of_pos _ ((hf x).trans hp),
        List.find?_cons_of_pos _ hp]
      rfl
    · simp only [updateFirst, if_neg hp]
      rw [List.find?_cons_of_neg _ hp, List.find?_cons_of_neg _ hp, ih]

/-! ### The cancellation policy -/

/-- Rule 1 cannot fire when the two warehouses differ: the rule requires
both to be the literal string "Central Hub". -/
theorem rule1_not_fire_of_diff_warehouse (p : Parcel)
    (hw : p.senderWarehouse ≠ p.receiverWarehouse) :
    ¬(p.senderRegion = p.receiverRegion ∧ p.senderWarehouse = "Central Hub" ∧
      p.receiverWarehouse = "Central Hub") := by
  rintro ⟨-, hs, hr⟩
  exact hw (hs.trans hr.symm)

/-- Evaluation of the policy on a same-region, different-warehouse parcel:
only the two time rules can apply. -/
theorem evaluatePolicy_crossHub (p : Parcel) (h : ℚ)
    (hr : p.senderRegion = p.receiverRegion)
    (hw : p.senderWarehouse ≠ p.receiverWarehouse) :
    evaluatePolicy p h =
      if h > 24 then .denied msg24h
      else if h > 8 then .denied msg8h
      else .allowed := by
  unfold evaluatePolicy
  rw [if_neg (rule1_not_fire_of_diff_warehouse p hw)]
  by_cases h24 : h > 24
  · rw [if_pos h24, if_pos h24]
  · rw [if_neg h24, if_neg h24]
    by_cases h8 : h > 8
    · rw [if_pos ⟨hr, hw, h8⟩, if_pos h8]
    · rw [if_neg (by rintro ⟨-, -, hc⟩; exact h8 hc), if_neg h8]

/-- The three denial messages are pairwise distinct strings. -/
theorem msgSameHub_ne_msg24h : msgSameHub ≠ msg24h := by decide

/-- The 8-hour message differs from the 24-hour message. -/
theorem msg8h_ne_msg24h : msg8h ≠ msg24h := by decide

/-- The same-hub message differs from the 8-hour message. -/
theorem msgSameHub_ne_msg8h : msgSameHub ≠ msg8h := by decide

/-- A denial carrying the 24-hour message only happens past 24 hours. -/
theorem denied24_gt (p : Parcel) (h : ℚ)
    (heq : evaluatePolicy p h = .denied msg24h) : 24 < h := by
  unfold evaluatePolicy at heq
  split at heq
  · exact absurd (PolicyDecision.denied.inj heq) msgSameHub_ne_msg24h
  · split at heq
    · assumption
    · split at heq
      · exact absurd (PolicyDecision.denied.inj heq) msg8h_ne_msg24h
      · exact absurd heq (by simp)

/-- A denial carrying the 8-hour message only happens past 8 hours. -/
theorem denied8_gt (p : Parcel) (h : ℚ)
    (heq : evaluatePolicy p h = .denied msg8h) : 8 < h := by
  unfold evaluatePolicy at heq
  split at heq
  · exact absurd (PolicyDecision.denied.inj heq) msgSameHub_ne_msg8h
  · split at heq
    · exact absurd (PolicyDecision.denied.inj heq)
        (fun hc => msg8h_ne_msg24h hc.symm)
    · split at heq
      · rename_i hc
        exact hc.2.2
      · exact absurd heq (by simp)

/-- C4: a parcel whose sender and receiver regions coincide and whose two
warehouses are both "Central Hub" is denied with the same-regional-central-hub
reason for every elapsed time; the structural rule fires first, so such a
parcel is never denied with a time-window reason and never allowed within
24 hours. -/
theorem sameHub_always_denied (p : Parcel) (hoursDiff : ℚ)
    (hr : p.senderRegion = p.receiverRegion)
    (hs : p.senderWarehouse = "Central Hub")
    (hw : p.receiverWarehouse = "Central Hub") :
    evaluatePolicy p hoursDiff = .denied msgSameHub := by
  unfold evaluatePolicy
  rw [if_pos ⟨hr, hs, hw⟩]

/-- A same-region parcel routed through the central hub on both ends, used
as a concrete policy input. -/
def centralHubParcel : Parcel :=
  { id := 7
    trackingId := some "TRK-CH"
    createdBy_name := some "Atanu"
    createdBy_email := some "atanu@example.com"
    senderRegion := "Dhaka"
    receiverRegion := "Dhaka"
    senderWarehouse := "Central Hub"
    receiverWarehouse := "Central Hub"
    parcelType := "Document"
    createdAt := 0
    status := "Pending"
    paymentStatus := "Not Paid"
    deliveredAt := none
    paymentInfo := none }

/-- Witness for C4 at elapsed time 1000 hours. -/
theorem sameHub_always_denied_witness :
    evaluatePolicy centralHubParcel 1000 = .denied msgSameHub :=
  sameHub_always_denied centralHubParcel 1000 rfl rfl rfl

/-- C5: the time windows are inclusive at their boundaries: at exactly 24
hours the 24-hour rule does not deny, at exactly 8 hours a same-region
cross-hub parcel is allowed, and a denial by either time rule requires
strictly exceeding the limit. -/
theorem cancel_windows_inclusive (p : Parcel) :
    evaluatePolicy p 24 ≠ .denied msg24h ∧
    (p.senderRegion = p.receiverRegion →
      p.senderWarehouse ≠ p.receiverWarehouse →
      evaluatePolicy p 8 = .allowed) ∧
    (∀ h : ℚ, evaluatePolicy p h = .denied msg24h → 24 < h) ∧
    (∀ h : ℚ, evaluatePolicy p h = .denied msg8h → 8 < h) := by
  refine ⟨?_, ?_, denied24_gt p, denied8_gt p⟩
  · intro hc
    exact absurd (denied24_gt p 24 hc) (by norm_num)
  · intro hr hw
    rw [evaluatePolicy_crossHub p 8 hr hw]
    norm_num

/-- A same-region parcel between two distinct ordinary hubs, used as a
concrete policy input. -/
def crossHubParcel : Parcel :=
  { centralHubParcel with
      id := 8
      trackingId := some "TRK-XH"
      senderWarehouse := "Hub1"
      receiverWarehouse := "Hub2" }

/-- Witness for C5 at the concrete parcel `crossHubParcel`. -/
theorem cancel_windows_inclusive_witness :
    evaluatePolicy crossHubParcel 24 ≠ .denied msg24h ∧
    evaluatePolicy crossHubParcel 8 = .allowed ∧
    (evaluatePolicy crossHubParcel 30 = .denied msg24h → (24:ℚ) < 30) ∧
    (evaluatePolicy crossHubParcel 9 = .denied msg8h → (8:ℚ) < 9) :=
  ⟨(cancel_windows_inclusive crossHubParcel).1,
   (cancel_windows_inclusive crossHubParcel).2.1 rfl (by decide),
   (cancel_windows_inclusive crossHubParcel).2.2.1 30,
   (cancel_windows_inclusive crossHubParcel).2.2.2 9⟩

/-- C6: a same-region parcel between different warehouses is denied with the
8-hour-window reason at 9 elapsed hours (the 24-hour rule does not fire),
and allowed at 5 elapsed hours. -/
theorem crossHub_nine_denied_five_allowed (p : Parcel)
    (hr : p.senderRegion = p.receiverRegion)
    (hw : p.senderWarehouse ≠ p.receiverWarehouse) :
    evaluatePolicy p 9 = .denied msg8h ∧ evaluatePolicy p 5 = .allowed := by
  rw [evaluatePolicy_crossHub p 9 hr hw, evaluatePolicy_crossHub p 5 hr hw]
  norm_num

/-- Witness for C6 at the concrete parcel `crossHubParcel`. -/
theorem crossHub_nine_denied_five_allowed_witness :
    evaluatePolicy crossHubParcel 9 = .denied msg8h ∧
    evaluatePolicy crossHubParcel 5 = .allowed :=
  crossHub_nine_denied_five_allowed crossHubParcel rfl (by decide)

/-! ### Concrete sample data for witnesses and counterexamples -/

/-- A cross-region parcel, freshly created, used as concrete store content. -/
def sampleParcel : Parcel :=
  { id := 0
    trackingId := some "TRK-1"
    createdBy_name := some "Atanu"
    createdBy_email := some "atanu@example.com"
    senderRegion := "Dhaka"
    receiverRegion := "Sylhet"
    senderWarehouse := "Hub A"
    receiverWarehouse := "Hub B"
    parcelType := "Document"
    createdAt := 0
    status := "Pending"
    paymentStatus := "Not Paid"
    deliveredAt := none
    paymentInfo := none }

/-- A store holding exactly `sampleParcel`. -/
def sampleDB : DB := { emptyDB with nextId := 1, parcels := [sampleParcel] }

/-- The sample parcel already delivered. -/
def deliveredParcel : Parcel := { sampleParcel with status := "Delivered" }

/-- A store holding exactly `deliveredParcel`. -/
def deliveredDB : DB :=
  { emptyDB with nextId := 1, parcels := [deliveredParcel] }

/-! ### Self-service cancellation -/

/-- Updating the status of the first parcel matching an id keeps it
matching that id. -/
theorem byId_set_status (i : Nat) (s : String) (a : Parcel) :
    byId i { a with status := s } = byId i a := rfl

/-- C2: a cancel request on a stored parcel that the policy allows responds
200 with success true, and the parcel's status is Cancelled afterwards. -/
theorem cancel_allowed_ok (db : DB) (id : Nat) (now : ℚ) (parcel : Parcel)
    (hfind : db.parcels.find? (byId id) = some parcel)
    (hpol : evaluatePolicy parcel (now - parcel.createdAt) = .allowed) :
    (cancelParcel db id now).1 = .ok ∧
      ((cancelParcel db id now).2.parcels.find? (byId id)).map Parcel.status =
        some "Cancelled" := by
  simp only [cancelParcel, hfind, hpol]
  refine ⟨trivial, ?_⟩
  rw [find?_updateFirst (byId id) _ (byId_set_status id "Cancelled") db.parcels,
    hfind]
  rfl

/-- Witness for C2: cancelling `sampleParcel` one hour after creation. -/
theorem cancel_allowed_ok_witness :
    (cancelParcel sampleDB 0 1).1 = .ok ∧
      ((cancelParcel sampleDB 0 1).2.parcels.find? (byId 0)).map Parcel.status =
        some "Cancelled" :=
  cancel_allowed_ok sampleDB 0 1 sampleParcel (by decide)
    (by rw [show (1 : ℚ) - sampleParcel.createdAt = 1 from by
          norm_num [sampleParcel]]
        decide)

/-- C10: the cancel handler never reads the parcel's current status: a
parcel already in a terminal state (Delivered or Cancelled) whose attributes
and elapsed time satisfy the policy is cancelled all the same. -/
theorem cancel_ignores_terminal_status (db : DB) (id : Nat) (now : ℚ)
    (parcel : Parcel)
    (hfind : db.parcels.find? (byId id) = some parcel)
    (hterm : parcel.status = "Delivered" ∨ parcel.status = "Cancelled")
    (hpol : evaluatePolicy parcel (now - parcel.createdAt) = .allowed) :
    (cancelParcel db id now).1 = .ok ∧
      ((cancelParcel db id now).2.parcels.find? (byId id)).map Parcel.status =
        some "Cancelled" := by
  simp only [cancelParcel, hfind, hpol]
  refine ⟨trivial, ?_⟩
  rw [find?_updateFirst (byId id) _ (byId_set_status id "Cancelled") db.parcels,
    hfind]
  rfl

/-- Witness for C10: cancelling the already-delivered `deliveredParcel`
succeeds and rewrites its status to Cancelled. -/
theorem cancel_ignores_terminal_status_witness :
    (cancelParcel deliveredDB 0 1).1 = .ok ∧
      ((cancelParcel deliveredDB 0 1).2.parcels.find? (byId 0)).map
        Parcel.status = some "Cancelled" :=
  cancel_ignores_terminal_status deliveredDB 0 1 deliveredParcel (by decide)
    (Or.inl rfl)
    (by rw [show (1 : ℚ) - deliveredParcel.createdAt = 1 from by
          norm_num [deliveredParcel, sampleParcel]]
        decide)

/-! ### Tracking-ledger writes on status changes -/

/-- Counterexample to C3: a successful self-service cancel changes the
parcel's status to Cancelled yet appends nothing to the tracking ledger —
the cancel handler only updates the parcel and emits a notification. -/
theorem cancel_appends_event_cex :
    (cancelParcel sampleDB 0 1).1 = .ok ∧
    (cancelParcel sampleDB 0 1).2.parcels.map Parcel.status = ["Cancelled"] ∧
    (cancelParcel sampleDB 0 1).2.tracking = [] := by
  have hfind : sampleDB.parcels.find? (byId 0) = some sampleParcel := by decide
  have hpol : evaluatePolicy sampleParcel (1 - sampleParcel.createdAt) =
      .allowed := by
    rw [show (1 : ℚ) - sampleParcel.createdAt = 1 from by norm_num [sampleParcel]]
    decide
  simp only [cancelParcel, hfind, hpol]
  refine ⟨trivial, by decide, rfl⟩

/-- C3 (amended): an admin status update on a stored parcel appends exactly
one TrackingEvent recording the new status, but a self-service cancel — on
any outcome, including success — leaves the tracking ledger unchanged. -/
theorem tracking_append_amended (db : DB) (id : Nat) (now : ℚ)
    (newStatus : String) (updatedBy : Option String) :
    (cancelParcel db id now).2.tracking = db.tracking ∧
    (∀ parcel, db.parcels.find? (byId id) = some parcel →
      (adminUpdateParcelStatus db id newStatus updatedBy now).2.tracking =
        db.tracking ++
          [{ tracking_Id := parcel.trackingId
             parcel_id := some parcel.id
             status := newStatus
             message := "Status updated to " ++ newStatus
             time := now
             updated_by := updatedBy.getD "System" }]) := by
  constructor
  · cases hfind : db.parcels.find? (byId id) with
    | none => simp [cancelParcel, hfind]
    | some parcel =>
      cases hpol : evaluatePolicy parcel (now - parcel.createdAt) with
      | denied msg => simp [cancelParcel, hfind, hpol]
      | allowed => simp [cancelParcel, hfind, hpol]
  · intro parcel hfind
    simp [adminUpdateParcelStatus, hfind]

/-- Witness for C3 (amended): on `sampleDB`, cancel appends no event while
an admin update to PickedUp appends exactly its one event. -/
theorem tracking_append_amended_witness :
    (cancelParcel sampleDB 0 1).2.tracking = sampleDB.tracking ∧
    (adminUpdateParcelStatus sampleDB 0 "PickedUp" none 1).2.tracking =
      sampleDB.tracking ++
        [{ tracking_Id := some "TRK-1"
           parcel_id := some 0
           status := "PickedUp"
           message := "Status updated to PickedUp"
           time := 1
           updated_by := "System" }] :=
  ⟨(tracking_append_amended sampleDB 0 1 "PickedUp" none).1,
   (tracking_append_amended sampleDB 0 1 "PickedUp" none).2 sampleParcel
     (by decide)⟩

/-! ### Payment confirmation -/

/-- Marking the first parcel matching a tracking code as paid keeps it
matching that tracking code. -/
theorem byTrackingId_set_paid (tid : String) (info : PaymentInfo) (a : Parcel) :
    byTrackingId tid
      { a with paymentStatus := "Paid", paymentInfo := some info } =
    byTrackingId tid a := rfl

/-- When the parcel found by tracking code is already Paid, the payment
handler responds 409 and leaves the whole database untouched. -/
theorem confirmPayment_already_paid (db : DB) (tid pi : String) (a : ℚ)
    (e : String) (t : ℚ) (q : Parcel)
    (hfind : db.parcels.find? (byTrackingId tid) = some q)
    (hpaid : q.paymentStatus = "Paid") :
    confirmPayment db tid pi a e t = (.conflict, db) := by
  simp only [confirmPayment, hfind, if_pos hpaid]

/-- C7: payment confirmation is a one-way gate.  On a stored, not-yet-paid
parcel whose tracking code has no payment-ledger entry, the first
confirmation succeeds, the second responds 409 Conflict and writes nothing
(the whole database is unchanged), and the ledger then holds exactly one
entry for that tracking code. -/
theorem confirmPayment_one_way (db : DB) (tid pi1 pi2 : String) (a1 a2 : ℚ)
    (e1 e2 : String) (t1 t2 : ℚ) (parcel : Parcel)
    (hfind : db.parcels.find? (byTrackingId tid) = some parcel)
    (hnot : parcel.paymentStatus ≠ "Paid")
    (hledger : db.payments.countP (fun r => r.trackingId == tid) = 0) :
    (confirmPayment db tid pi1 a1 e1 t1).1 = .ok ∧
    (confirmPayment (confirmPayment db tid pi1 a1 e1 t1).2 tid pi2 a2 e2 t2).1 =
      .conflict ∧
    (confirmPayment (confirmPayment db tid pi1 a1 e1 t1).2 tid pi2 a2 e2 t2).2 =
      (confirmPayment db tid pi1 a1 e1 t1).2 ∧
    (confirmPayment db tid pi1 a1 e1 t1).2.payments.countP
      (fun r => r.trackingId == tid) = 1 := by
  have hstep : confirmPayment db tid pi1 a1 e1 t1 =
      (.ok,
        { db with
            parcels := updateFirst (byTrackingId tid)
              (fun p => { p with
                  paymentStatus := "Paid"
                  paymentInfo := some
                    { paymentIntentId := pi1, amount := a1, paidAt := t1,
                      payerEmail := e1 } })
              db.parcels
            payments := db.payments ++
              [{ paymentIntentId := pi1, amount := a1, paidAt := t1,
                 payerEmail := e1,
                 payerName := parcel.createdBy_name.getD "Unknown",
                 trackingId := tid, parcelType := parcel.parcelType,
                 region := parcel.senderRegion,
                 receiverRegion := parcel.receiverRegion }]
            notifications := db.notifications + 1 }) := by
    simp only [confirmPayment, hfind, if_neg hnot]
  have hfind2 : (confirmPayment db tid pi1 a1 e1 t1).2.parcels.find?
      (byTrackingId tid) =
      some { parcel with
        paymentStatus := "Paid"
        paymentInfo := some
          { paymentIntentId := pi1, amount := a1, paidAt := t1,
            payerEmail := e1 } } := by
    rw [hstep]
    simp only
    rw [find?_updateFirst (byTrackingId tid) _ (byTrackingId_set_paid tid _)
      db.parcels, hfind]
    rfl
  have hconf := confirmPayment_already_paid
    (confirmPayment db tid pi1 a1 e1 t1).2 tid pi2 a2 e2 t2 _ hfind2 rfl
  refine ⟨by rw [hstep], by rw [hconf], by rw [hconf], ?_⟩
  rw [hstep]
  simp only [List.countP_append, hledger]
  simp

/-- Witness for C7: paying for `sampleParcel` twice. -/
theorem confirmPayment_one_way_witness :
    (confirmPayment sampleDB "TRK-1" "pi_1" 120 "atanu@example.com" 2).1 =
      .ok ∧
    (confirmPayment (confirmPayment sampleDB "TRK-1" "pi_1" 120
      "atanu@example.com" 2).2 "TRK-1" "pi_2" 120 "atanu@example.com" 3).1 =
      .conflict ∧
    (confirmPayment (confirmPayment sampleDB "TRK-1" "pi_1" 120
      "atanu@example.com" 2).2 "TRK-1" "pi_2" 120 "atanu@example.com" 3).2 =
      (confirmPayment sampleDB "TRK-1" "pi_1" 120 "atanu@example.com" 2).2 ∧
    (confirmPayment sampleDB "TRK-1" "pi_1" 120
      "atanu@example.com" 2).2.payments.countP
      (fun r => r.trackingId == "TRK-1") = 1 :=
  confirmPayment_one_way sampleDB "TRK-1" "pi_1" "pi_2" 120 120
    "atanu@example.com" "atanu@example.com" 2 3 sampleParcel (by decide)
    (by decide) (by decide)

/-! ### Parcel creation -/

/-- A draft with neither a creator email nor a tracking code. -/
def anonymousDraft : ParcelDraft :=
  { trackingId := none
    createdBy_name := none
    createdBy_email := none
    senderRegion := "Dhaka"
    receiverRegion := "Sylhet"
    senderWarehouse := "Hub A"
    receiverWarehouse := "Hub B"
    parcelType := "Document"
    status := "Delivered"
    paymentStatus := "Paid" }

/-- Counterexample to C8: a draft missing both the creator email and the
tracking code is not rejected — the handler stores it and responds 201
with the insert result. -/
theorem create_validation_cex :
    (createParcel emptyDB anonymousDraft 0).1 = .created 0 ∧
    (createParcel emptyDB anonymousDraft 0).2.parcels.length = 1 := by decide

/-- C8 (amended): parcel creation performs no required-field validation: a
draft whose creator email and tracking code are both absent is still stored
(one more parcel, with status forced to Pending and paymentStatus forced to
Not Paid) and the handler responds 201 with the new record's id. -/
theorem create_no_validation (db : DB) (draft : ParcelDraft) (now : ℚ)
    (hemail : draft.createdBy_email = none)
    (htid : draft.trackingId = none) :
    (createParcel db draft now).1 = .created db.nextId ∧
    (createParcel db draft now).2.parcels.length = db.parcels.length + 1 ∧
    ((createParcel db draft now).2.parcels.map Parcel.status) =
      db.parcels.map Parcel.status ++ ["Pending"] ∧
    ((createParcel db draft now).2.parcels.map Parcel.paymentStatus) =
      db.parcels.map Parcel.paymentStatus ++ ["Not Paid"] := by
  refine ⟨rfl, ?_, ?_, ?_⟩ <;> simp [createParcel]

/-- Witness for C8 (amended), at the concrete `anonymousDraft`. -/
theorem create_no_validation_witness :
    (createParcel emptyDB anonymousDraft 0).1 = .created emptyDB.nextId ∧
    (createParcel emptyDB anonymousDraft 0).2.parcels.length =
      emptyDB.parcels.length + 1 ∧
    ((createParcel emptyDB anonymousDraft 0).2.parcels.map Parcel.status) =
      emptyDB.parcels.map Parcel.status ++ ["Pending"] ∧
    ((createParcel emptyDB anonymousDraft 0).2.parcels.map
      Parcel.paymentStatus) =
      emptyDB.parcels.map Parcel.paymentStatus ++ ["Not Paid"] :=
  create_no_validation emptyDB anonymousDraft 0 rfl rfl

/-! ### The tracking-append frame effect -/

/-- C9: POST /tracking with a parcel id inserts the ledger entry and in
addition unconditionally overwrites that parcel's status with the
caller-supplied value — any string, no validation, no precondition beyond
the parcel being stored; whenever the supplied value differs from the
current status, the Parcel Store is genuinely changed. -/
theorem postTracking_overwrites_status (db : DB) (tid0 : Option String)
    (pid : Nat) (st msg ub : String) (now : ℚ) (parcel : Parcel)
    (hfind : db.parcels.find? (byId pid) = some parcel) :
    (postTracking db tid0 (some pid) st msg ub now).1 =
      .ok db.tracking.length ∧
    (postTracking db tid0 (some pid) st msg ub now).2.tracking =
      db.tracking ++
        [{ tracking_Id := tid0, parcel_id := some pid, status := st,
           message := msg, time := now, updated_by := ub }] ∧
    ((postTracking db tid0 (some pid) st msg ub now).2.parcels.find?
      (byId pid)).map Parcel.status = some st ∧
    (st ≠ parcel.status →
      (postTracking db tid0 (some pid) st msg ub now).2.parcels ≠
        db.parcels) := by
  have hfind2 : (postTracking db tid0 (some pid) st msg ub now).2.parcels.find?
      (byId pid) = some { parcel with status := st } := by
    simp only [postTracking]
    rw [find?_updateFirst (byId pid) _ (byId_set_status pid st) db.parcels,
      hfind]
    rfl
  refine ⟨rfl, rfl, by rw [hfind2]; rfl, ?_⟩
  intro hne heq
  rw [heq, hfind] at hfind2
  exact hne (congrArg Parcel.status (Option.some.inj hfind2).symm)

/-- Witness for C9: appending an event with the arbitrary status string
"Lost in space" rewrites `sampleParcel`'s status to it. -/
theorem postTracking_overwrites_status_witness :
    (postTracking sampleDB (some "TRK-1") (some 0) "Lost in space" "m" "u"
      2).1 = .ok sampleDB.tracking.length ∧
    (postTracking sampleDB (some "TRK-1") (some 0) "Lost in space" "m" "u"
      2).2.tracking = sampleDB.tracking ++
        [{ tracking_Id := some "TRK-1", parcel_id := some 0,
           status := "Lost in space", message := "m", time := 2,
           updated_by := "u" }] ∧
    ((postTracking sampleDB (some "TRK-1") (some 0) "Lost in space" "m" "u"
      2).2.parcels.find? (byId 0)).map Parcel.status =
      some "Lost in space" ∧
    (postTracking sampleDB (some "TRK-1") (some 0) "Lost in space" "m" "u"
      2).2.parcels ≠ sampleDB.parcels :=
  ⟨(postTracking_overwrites_status sampleDB (some "TRK-1") 0 "Lost in space"
      "m" "u" 2 sampleParcel (by decide)).1,
   (postTracking_overwrites_status sampleDB (some "TRK-1") 0 "Lost in space"
      "m" "u" 2 sampleParcel (by decide)).2.1,
   (postTracking_overwrites_status sampleDB (some "TRK-1") 0 "Lost in space"
      "m" "u" 2 sampleParcel (by decide)).2.2.1,
   (postTracking_overwrites_status sampleDB (some "TRK-1") 0 "Lost in space"
      "m" "u" 2 sampleParcel (by decide)).2.2.2 (by decide)⟩

/-! ### The status-set invariant over operation sequences -/

/-- The fixed finite set of lifecycle statuses named by the data-model
invariant. -/
def validStatuses : List String :=
  ["Pending", "PickedUp", "InTransit", "OutForDelivery", "Delivered",
   "Cancelled"]

/-- An operation supplies only statuses from the fixed set: the admin
status update and the tracking append are the two operations that write a
caller-chosen status. -/
def opSuppliesValidStatus : Op → Prop
  | .adminStatus _ newStatus _ _ => newStatus ∈ validStatuses
  | .tracking _ _ status _ _ _ => status ∈ validStatuses
  | _ => True

instance instDecOpSupplies (op : Op) : Decidable (opSuppliesValidStatus op) :=
  match op with
  | .create _ _ => isTrue trivial
  | .cancel _ _ => isTrue trivial
  | .adminStatus _ ns _ _ => inferInstanceAs (Decidable (ns ∈ validStatuses))
  | .tracking _ _ st _ _ _ => inferInstanceAs (Decidable (st ∈ validStatuses))
  | .payment _ _ _ _ _ => isTrue trivial

/-- A fully populated parcel draft. -/
def seedDraft : ParcelDraft :=
  { trackingId := some "TRK-2"
    createdBy_name := some "Atanu"
    createdBy_email := some "atanu@example.com"
    senderRegion := "Dhaka"
    receiverRegion := "Sylhet"
    senderWarehouse := "Hub A"
    receiverWarehouse := "Hub B"
    parcelType := "Document"
    status := "Pending"
    paymentStatus := "Not Paid" }

/-- Create a parcel, then have an admin set its status to an arbitrary
string outside the fixed set. -/
def rogueOps : List Op :=
  [.create seedDraft 0, .adminStatus 0 "Lost in space" none 1]

/-- Counterexample to C1: the admin status update writes the caller-supplied
status unvalidated, so after a creation followed by an admin update to
"Lost in space" the stored parcel's status lies outside the fixed set. -/
theorem status_invariant_cex :
    (applyOps emptyDB rogueOps).parcels.map Parcel.status =
      ["Lost in space"] ∧
    "Lost in space" ∉ validStatuses := by decide

/-- One operation preserves the status-set invariant provided the statuses
it supplies are drawn from the fixed set. -/
theorem statusOk_applyOp (db : DB) (op : Op)
    (hdb : ∀ p ∈ db.parcels, p.status ∈ validStatuses)
    (hop : opSuppliesValidStatus op) :
    ∀ p ∈ (applyOp db op).parcels, p.status ∈ validStatuses := by
  cases op with
  | create draft now =>
    intro p hp
    simp only [applyOp, createParcel, List.mem_append, List.mem_singleton]
      at hp
    rcases hp with hp | hp
    · exact hdb p hp
    · rw [hp]; show "Pending" ∈ validStatuses; decide
  | cancel id now =>
    intro p hp
    rcases hfind : db.parcels.find? (byId id) with _ | parcel
    · simp only [applyOp, cancelParcel, hfind] at hp
      exact hdb p hp
    · rcases hpol : evaluatePolicy parcel (now - parcel.createdAt)
        with msg | _
      · simp only [applyOp, cancelParcel, hfind, hpol] at hp
        exact hdb p hp
      · simp only [applyOp, cancelParcel, hfind, hpol] at hp
        rcases mem_updateFirst _ _ db.parcels p hp with h | ⟨x, hx, he⟩
        · exact hdb p h
        · rw [he]; show "Cancelled" ∈ validStatuses; decide
  | adminStatus id ns ub now =>
    intro p hp
    rcases hfind : db.parcels.find? (byId id) with _ | parcel
    · simp only [applyOp, adminUpdateParcelStatus, hfind] at hp
      exact hdb p hp
    · simp only [applyOp, adminUpdateParcelStatus, hfind] at hp
      rcases mem_updateFirst _ _ db.parcels p hp with h | ⟨x, hx, he⟩
      · exact hdb p h
      · rw [he]; exact hop
  | tracking tid pid st msg ub now =>
    cases pid with
    | none =>
      intro p hp
      simp only [applyOp, postTracking] at hp
      exact hdb p hp
    | some pid =>
      intro p hp
      simp only [applyOp, postTracking] at hp
      rcases mem_updateFirst _ _ db.parcels p hp with h | ⟨x, hx, he⟩
      · exact hdb p h
      · rw [he]; exact hop
  | payment tid pi amt pe now =>
    intro p hp
    rcases hfind : db.parcels.find? (byTrackingId tid) with _ | parcel
    · simp only [applyOp, confirmPayment, hfind] at hp
      exact hdb p hp
    · by_cases hpaid : parcel.paymentStatus = "Paid"
      · simp only [applyOp, confirmPayment, hfind, if_pos hpaid] at hp
        exact hdb p hp
      · simp only [applyOp, confirmPayment, hfind, if_neg hpaid] at hp
        rcases mem_updateFirst _ _ db.parcels p hp with h | ⟨x, hx, he⟩
        · exact hdb p h
        · rw [he]; exact hdb x hx

/-- The invariant is preserved along any sequence of operations. -/
theorem statusOk_applyOps (ops : List Op) :
    ∀ db : DB, (∀ p ∈ db.parcels, p.status ∈ validStatuses) →
      (∀ op ∈ ops, opSuppliesValidStatus op) →
      ∀ p ∈ (applyOps db ops).parcels, p.status ∈ validStatuses := by
  induction ops with
  | nil => intro db hdb _; exact hdb
  | cons op ops ih =>
    intro db hdb hops
    exact ih (applyOp db op)
      (statusOk_applyOp db op hdb (hops op (List.mem_cons_self op ops)))
      (fun o ho => hops o (List.mem_cons_of_mem op ho))

/-- C1 (amended): after any sequence of the five operations, every stored
parcel's status lies in the fixed finite set, provided the statuses supplied
to the admin status update and the tracking append are themselves drawn
from that set — creation forces Pending and cancellation writes Cancelled,
but the other two status writes are unvalidated, so the invariant holds
only conditionally on the callers. -/
theorem status_invariant_amended (db : DB) (ops : List Op)
    (hdb : ∀ p ∈ db.parcels, p.status ∈ validStatuses)
    (hops : ∀ op ∈ ops, opSuppliesValidStatus op) :
    ∀ p ∈ (applyOps db ops).parcels, p.status ∈ validStatuses :=
  statusOk_applyOps ops db hdb hops

/-- Create a parcel, then advance it to Delivered by admin update. -/
def advanceOps : List Op :=
  [.create seedDraft 0, .adminStatus 0 "Delivered" none 1]

/-- Witness for C1 (amended): the parcel left by a creation followed by an
admin update to Delivered has its status in the fixed set. -/
theorem status_invariant_amended_witness :
    (applyOps emptyDB advanceOps).parcels.headI.status ∈ validStatuses :=
  status_invariant_amended emptyDB advanceOps (by decide) (by decide)
    (applyOps emptyDB advanceOps).parcels.headI (by decide)

end Profast
